import Mathlib

/-!
Verification development for the afrobeats-no repository.

The repository's presentation layer (Next.js API routes under
`web/app/api/*/route.ts` and the client hooks) is embedded directly from
the TypeScript source.  The query-orchestration backend (a FastAPI
service) is not part of the source tree; where a property depends on it,
the backend is modelled from the specification and the model is marked
as such in its doc comment.
-/

namespace Afro

/-- JSON-like values, the data exchanged at the request boundary.
JavaScript `undefined` is represented by `Option.none` at use sites
(e.g. a missing object field); `NaN` is not representable and is not
used by any route. -/
inductive Json where
  | null : Json
  | bool : Bool → Json
  | num : Int → Json
  | str : String → Json
  | arr : List Json → Json
  | obj : List (String × Json) → Json

/-- Pure field lookup: first binding of the key, `none` when the value
is not an object or the key is absent.  This is the dictionary-style
access of the modelled Python backend, and the vocabulary of the
specifications; JS member access is `Json.access` below. -/
def Json.lookup : Json → String → Option Json
  | Json.obj fields, k =>
      match fields.find? (fun p => p.1 == k) with
      | some p => some p.2
      | none => none
  | _, _ => none

/-- JS member access `body.field` on a parsed JSON value: `none` models
the thrown TypeError of access on `null`; `some none` models
`undefined` (key absent, or a non-object, non-null receiver);
`some (some v)` is the value. -/
def Json.access : Json → String → Option (Option Json)
  | Json.null, _ => none
  | Json.obj fields, k =>
      match fields.find? (fun p => p.1 == k) with
      | some p => some (some p.2)
      | none => some none
  | _, _ => some none

/-- JavaScript falsiness of an optional JSON value: `undefined` (absent),
`null`, `false`, `0` and the empty string are falsy. -/
def falsy : Option Json → Bool
  | none => true
  | some Json.null => true
  | some (Json.bool b) => !b
  | some (Json.num n) => n == 0
  | some (Json.str s) => s == ""
  | some (Json.arr _) => false
  | some (Json.obj _) => false

/-- JavaScript `v || dflt`: the default when `v` is falsy, else `v`. -/
def jsOr (v : Option Json) (dflt : Json) : Json :=
  match v with
  | some x => if falsy (some x) then dflt else x
  | none => dflt

/-- An HTTP response as produced by a route handler: status and JSON body. -/
structure HttpResponse where
  status : Nat
  body : Json

/-- Outcome of the route's `fetch` to the backend: the promise resolved
with a status and a JSON body (`none` when `response.json()` rejects),
or the fetch itself threw. -/
inductive FetchOutcome where
  | completed : Nat → Option Json → FetchOutcome
  | threw : String → FetchOutcome

/-- `response.ok` in the Fetch API: status in the range 200–299. -/
def respOk (st : Nat) : Bool := 200 ≤ st && st ≤ 299

/-- Result of running a route handler: the HTTP response to the caller,
the body forwarded to the backend (`none` when nothing was dispatched),
and the console log lines. -/
structure RouteResult where
  response : HttpResponse
  dispatched : Option Json
  logs : List String

/-- The constant 500 body from every route's `catch` branch. -/
def serverError : Json := Json.obj [("error", Json.str "Internal server error")]

/-- `POST` handler of `web/app/api/query/route.ts`.  `reqBody` is the
parsed request body (`none` when `request.json()` threw); `backend` is
the behaviour of `fetch` against the FastAPI `/query` endpoint.  Every
`body.x` / `errorData.x` is a `Json.access`: on a JSON `null` receiver
it throws, and the route's catch answers 500. -/
def queryPOST (reqBody : Option Json) (backend : Json → FetchOutcome) : RouteResult :=
  match reqBody with
  | none => ⟨⟨500, serverError⟩, none, ["Error processing query: body parse failed"]⟩
  | some b =>
    match b.access "query" with
    | none => ⟨⟨500, serverError⟩, none, ["Error processing query: TypeError"]⟩
    | some qv =>
      if falsy qv then
        ⟨⟨400, Json.obj [("error", Json.str "Query is required")]⟩, none, []⟩
      else
        match b.access "context" with
        | none => ⟨⟨500, serverError⟩, none, ["Error processing query: TypeError"]⟩
        | some cv =>
          let fwd := Json.obj [("query", qv.getD Json.null),
                               ("context", jsOr cv (Json.obj []))]
          match backend fwd with
          | FetchOutcome.threw msg =>
              ⟨⟨500, serverError⟩, some fwd, ["Error processing query: " ++ msg]⟩
          | FetchOutcome.completed st jb =>
            if respOk st then
              match jb with
              | some d => ⟨⟨200, d⟩, some fwd, []⟩
              | none =>
                ⟨⟨500, serverError⟩, some fwd, ["Error processing query: json parse failed"]⟩
            else
              match (jb.getD (Json.obj [("error", Json.str "Unknown error")])).access "error" with
              | none => ⟨⟨500, serverError⟩, some fwd, ["Error processing query: TypeError"]⟩
              | some ev =>
                ⟨⟨st, Json.obj [("error", jsOr ev (Json.str "Error processing query"))]⟩,
                  some fwd, ["API error status " ++ toString st]⟩

/-- The required-field list of `web/app/api/bookings/route.ts`, in source
order. -/
def requiredBookingFields : List String := ["dj_name", "date", "time", "hours", "venue"]

/-- The first required field on which `!body[field]` holds, scanning in
source order — the field the 400 message names. -/
def firstFalsyField (b : Json) : Option String :=
  requiredBookingFields.find? (fun f => falsy (b.lookup f))

/-- `POST` handler of `web/app/api/bookings/route.ts`.  The validation
loop's first `body[field]` is a `Json.access`: on a JSON `null` body it
throws and the catch answers 500; on any other body the accesses cannot
throw and the falsiness scan proceeds in source order. -/
def bookingsPOST (reqBody : Option Json) (backend : Json → FetchOutcome) : RouteResult :=
  match reqBody with
  | none => ⟨⟨500, serverError⟩, none, ["Error creating booking: body parse failed"]⟩
  | some b =>
    match b.access "dj_name" with
    | none => ⟨⟨500, serverError⟩, none, ["Error creating booking: TypeError"]⟩
    | some _ =>
      match firstFalsyField b with
      | some f => ⟨⟨400, Json.obj [("error", Json.str (f ++ " is required"))]⟩, none, []⟩
      | none =>
        match backend b with
        | FetchOutcome.threw msg =>
            ⟨⟨500, serverError⟩, some b, ["Error creating booking: " ++ msg]⟩
        | FetchOutcome.completed st jb =>
          if respOk st then
            match jb with
            | some d => ⟨⟨200, d⟩, some b, []⟩
            | none =>
              ⟨⟨500, serverError⟩, some b, ["Error creating booking: json parse failed"]⟩
          else
            match (jb.getD (Json.obj [("error", Json.str "Unknown error")])).access "error" with
            | none => ⟨⟨500, serverError⟩, some b, ["Error creating booking: TypeError"]⟩
            | some ev =>
              ⟨⟨st, Json.obj [("error", jsOr ev (Json.str "Error creating booking"))]⟩,
                some b, ["API error status " ++ toString st]⟩

/-- A CORS preflight response: status, headers, no body. -/
structure CorsResponse where
  status : Nat
  headers : List (String × String)

/-- `OPTIONS` handler of `web/app/api/query/route.ts`.  The handler's TS
signature ignores the incoming request and reads no configuration; the
`origin` and `allowedOrigins` arguments model that independence. -/
def queryOPTIONS (_origin : String) (_allowedOrigins : List String) : CorsResponse :=
  ⟨200, [("Access-Control-Allow-Origin", "*"),
         ("Access-Control-Allow-Methods", "POST, OPTIONS"),
         ("Access-Control-Allow-Headers", "Content-Type, Authorization")]⟩

/-- `OPTIONS` handler of `web/app/api/djs/route.ts`. -/
def djsOPTIONS (_origin : String) (_allowedOrigins : List String) : CorsResponse :=
  ⟨200, [("Access-Control-Allow-Origin", "*"),
         ("Access-Control-Allow-Methods", "GET, OPTIONS"),
         ("Access-Control-Allow-Headers", "Content-Type, Authorization")]⟩

/-- `OPTIONS` handler of `web/app/api/events/route.ts`. -/
def eventsOPTIONS (_origin : String) (_allowedOrigins : List String) : CorsResponse :=
  ⟨200, [("Access-Control-Allow-Origin", "*"),
         ("Access-Control-Allow-Methods", "GET, POST, OPTIONS"),
         ("Access-Control-Allow-Headers", "Content-Type, Authorization")]⟩

/-- `OPTIONS` handler of `web/app/api/bookings/route.ts`. -/
def bookingsOPTIONS (_origin : String) (_allowedOrigins : List String) : CorsResponse :=
  ⟨200, [("Access-Control-Allow-Origin", "*"),
         ("Access-Control-Allow-Methods", "POST, OPTIONS"),
         ("Access-Control-Allow-Headers", "Content-Type, Authorization")]⟩

/-- Truthiness of `searchParams.get(k)`: a non-null, non-empty string. -/
def jsTruthyStr : Option String → Bool
  | some s => !(s == "")
  | none => false

/-- Upper-case hexadecimal digit for `n < 16`. -/
def hexDigit (n : Nat) : Char := if n < 10 then Char.ofNat (48 + n) else Char.ofNat (55 + n)

/-- UTF-8 byte sequence of a character, as natural numbers below 256. -/
def utf8Bytes (c : Char) : List Nat :=
  let n := c.toNat
  if n < 128 then [n]
  else if n < 2048 then [192 + n / 64, 128 + n % 64]
  else if n < 65536 then [224 + n / 4096, 128 + (n / 64) % 64, 128 + n % 64]
  else [240 + n / 262144, 128 + (n / 4096) % 64, 128 + (n / 64) % 64, 128 + n % 64]

/-- Characters `encodeURIComponent` leaves unescaped: ASCII letters,
digits, and `- _ . ! ~ * ( )` together with the apostrophe (code 39). -/
def uriUnreserved (c : Char) : Bool :=
  (65 ≤ c.toNat && c.toNat ≤ 90) || (97 ≤ c.toNat && c.toNat ≤ 122) ||
  (48 ≤ c.toNat && c.toNat ≤ 57) ||
  ['-', '_', '.', '!', '~', '*', '(', ')'].contains c || c.toNat == 39

/-- Percent-encoding of one character, per JavaScript `encodeURIComponent`. -/
def encodeChar (c : Char) : List Char :=
  if uriUnreserved c then [c]
  else ((utf8Bytes c).map (fun b => ['%', hexDigit (b / 16), hexDigit (b % 16)])).flatten

/-- JavaScript `encodeURIComponent`. -/
def encodeURIComponent (s : String) : String := String.mk ((s.data.map encodeChar).flatten)

/-- JS `s.endsWith(ampersand)`: the last character is `&`. -/
def endsWithAmp (s : String) : Bool := s.data.getLast? == some '&'

/-- JS `s.slice(0, -1)`: drop the final character (applied by the routes
only when that character is the single-unit `&`). -/
def dropLastChar (s : String) : String := String.mk s.data.dropLast

/-- Lines 21–24 of the djs route: remove a trailing ampersand when
present. -/
def stripTrailingAmp (s : String) : String :=
  if endsWithAmp s then dropLastChar s else s

/-- Query-string construction of the `GET` handler in
`web/app/api/djs/route.ts`: append `name=value&` for each truthy incoming
parameter (renaming `minRating` to `min_rating`), then strip a trailing
ampersand. -/
def djsQueryString (genres minRating availability : Option String) : String :=
  stripTrailingAmp
    ((if jsTruthyStr genres then "genres=" ++ encodeURIComponent (genres.getD "") ++ "&" else "")
     ++ (if jsTruthyStr minRating then "min_rating=" ++ encodeURIComponent (minRating.getD "") ++ "&" else "")
     ++ (if jsTruthyStr availability then "availability=" ++ encodeURIComponent (availability.getD "") ++ "&" else ""))

/-- The URL the djs `GET` handler fetches: the backend base, `/djs`, and
the query string prefixed by `?` only when non-empty. -/
def djsURL (apiUrl : String) (genres minRating availability : Option String) : String :=
  let qs := djsQueryString genres minRating availability
  apiUrl ++ "/djs" ++ (if qs == "" then "" else "?" ++ qs)

/-- Spec-side description of one forwarded parameter: the named pair
with URI-encoded value exactly when the incoming parameter is present
and non-empty. -/
def paramOpt (name : String) (o : Option String) : List (String × String) :=
  match o with
  | some v => if v == "" then [] else [(name, encodeURIComponent v)]
  | none => []

/-- Spec-side description of the forwarded parameters: one `(name, value)`
pair per present, non-empty incoming parameter, in the fixed order
genres, min_rating, availability (`minRating` renamed), values
URI-encoded. -/
def djsParams (genres minRating availability : Option String) : List (String × String) :=
  paramOpt "genres" genres ++ paramOpt "min_rating" minRating ++
    paramOpt "availability" availability

/-- Render a parameter list as `name=value` pieces joined by `&`, with
no trailing ampersand. -/
def renderQS : List (String × String) → String
  | [] => ""
  | [p] => p.1 ++ "=" ++ p.2
  | p :: q :: rest => p.1 ++ "=" ++ p.2 ++ "&" ++ renderQS (q :: rest)

/-- The `name=value&` pieces as the route's loop concatenates them,
before the trailing ampersand is stripped. -/
def piecesConcat : List (String × String) → String
  | [] => ""
  | p :: rest => p.1 ++ "=" ++ p.2 ++ "&" ++ piecesConcat rest

/-- Spec-side description of the forwarded URL: `?` plus the joined
parameters exactly when at least one parameter is forwarded. -/
def djsURLSpec (apiUrl : String) (genres minRating availability : Option String) : String :=
  let ps := djsParams genres minRating availability
  apiUrl ++ "/djs" ++ (if ps.isEmpty then "" else "?" ++ renderQS ps)

/-- Modelled from the spec: responder invocation status (§3,
ResponderResult); the backend orchestration engine is not in the source
tree. -/
inductive RStatus where
  | succeeded : RStatus
  | failed : RStatus
  | timedOut : RStatus
deriving DecidableEq

/-- Modelled from the spec: a ResponderResult (§3) — responder id,
status, nullable content, latency, nullable error detail. -/
structure ResponderResult where
  rid : String
  rstatus : RStatus
  content : Option String
  latencyMs : Nat
  errorDetail : Option String

/-- Whitespace recognised by query normalization. -/
def isWS (c : Char) : Bool := c == ' ' || c == '\t' || c == '\n' || c == '\r'

/-- Case folding applied on the raw character list. -/
def lowerStr (s : String) : String := String.mk (s.data.map Char.toLower)

/-- Split a character list into its maximal whitespace-free words,
carrying the current word reversed in the accumulator. -/
def wordsAux : List Char → List Char → List String
  | [], acc => if acc.isEmpty then [] else [String.mk acc.reverse]
  | c :: cs, acc =>
    if isWS c then
      if acc.isEmpty then wordsAux cs []
      else String.mk acc.reverse :: wordsAux cs []
    else wordsAux cs (c :: acc)

/-- Words of a query after case folding — the unit of keyword scoring
and of normalization. -/
def tokens (q : String) : List String := wordsAux (lowerStr q).data []

/-- Join words with single spaces. -/
def joinSpace : List String → String
  | [] => ""
  | w :: ws => w ++ (if ws.isEmpty then "" else " " ++ joinSpace ws)

/-- Modelled from the spec: normalization for fingerprints (§3) —
case-fold, trim, collapse whitespace. -/
def normalizeText (s : String) : String := joinSpace (tokens s)

/-- Modelled from the spec: static responder metadata the Router
consults (§4.1, §9) — id, scoring keywords, declared domain breadth
(smaller is narrower). -/
structure ResponderMeta where
  rid : String
  keywords : List String
  breadth : Nat

/-- Modelled from the spec: the fixed responder set (§4.2) with keyword
lists and domain breadths for the Router's scoring. -/
def responders : List ResponderMeta :=
  [⟨"booking", ["book", "booking", "hire", "dj"], 1⟩,
   ⟨"events", ["event", "events", "concert", "festival"], 1⟩,
   ⟨"playlist", ["playlist", "songs", "tracks", "mix"], 1⟩,
   ⟨"rating", ["rating", "rated", "best", "top"], 1⟩,
   ⟨"content", ["music", "afrobeats", "amapiano", "oslo"], 3⟩,
   ⟨"social", ["share", "instagram", "social"], 2⟩,
   ⟨"artist", ["artist", "producer", "bio"], 1⟩,
   ⟨"analytics", ["stats", "analytics", "trends"], 2⟩]

/-- Modelled from the spec: keyword score of one responder for a query —
fraction of the responder's keywords present among the query's tokens. -/
def score (m : ResponderMeta) (q : String) : ℚ :=
  if m.keywords.isEmpty then 0
  else ((m.keywords.countP (fun k => (tokens q).contains k) : ℚ) / (m.keywords.length : ℚ))

/-- Confidence threshold for routing (§4.1, default 0.3). -/
def threshold : ℚ := 3 / 10

/-- Tie-break epsilon (§4.1, 0.05). -/
def eps : ℚ := 1 / 20

/-- Modelled from the spec: ranking used to order the dispatch plan —
higher score first, and within an epsilon the narrower domain first. -/
def ranksBefore (a b : ResponderMeta × ℚ) : Bool :=
  if b.2 + eps < a.2 then true
  else if a.2 + eps < b.2 then false
  else if a.1.breadth == b.1.breadth then decide (b.2 ≤ a.2)
  else decide (a.1.breadth < b.1.breadth)

/-- Insertion step of the plan ordering. -/
def insertRanked (x : ResponderMeta × ℚ) : List (ResponderMeta × ℚ) → List (ResponderMeta × ℚ)
  | [] => [x]
  | y :: ys => if ranksBefore x y then x :: y :: ys else y :: insertRanked x ys

/-- Insertion sort by `ranksBefore`. -/
def sortRanked : List (ResponderMeta × ℚ) → List (ResponderMeta × ℚ)
  | [] => []
  | x :: xs => insertRanked x (sortRanked xs)

/-- Id of the default general-purpose responder (§4.1). -/
def defaultResponderId : String := "general"

/-- Modelled from the spec: `classify(query)` (§4.1) — score every
responder, keep those clearing the threshold ordered by score with the
narrow-domain tie-break, and fall back to the default general responder
when none clears. -/
def classify (q : String) : List (String × ℚ) :=
  if ((responders.map (fun m => (m, score m q))).filter (fun p => threshold ≤ p.2)).isEmpty then
    [(defaultResponderId, 1)]
  else
    (sortRanked ((responders.map (fun m => (m, score m q))).filter
        (fun p => threshold ≤ p.2))).map (fun p => (p.1.rid, p.2))

/-- Modelled from the spec: cache fingerprint (§3) — normalized query
text together with the active responder set from classification. -/
def fingerprint (qtext : String) : String :=
  normalizeText qtext ++ "#" ++ String.intercalate "," ((classify qtext).map (fun p => p.1))

/-- Modelled from the spec: a SynthesizedResponse (§3). -/
structure SynthResp where
  text : String
  agents : List String
  timestamp : Nat
  cacheHit : Bool

/-- Modelled from the spec: the cache (§4.5) — fingerprint to response
and expiry instant; newest entry first, first match wins. -/
def Cache : Type := List (String × SynthResp × Nat)

/-- Modelled from the spec: `get(fingerprint)` with lazy expiry — a hit
only when the entry exists and has not expired. -/
def cacheGet (st : Cache) (fp : String) (now : Nat) : Option SynthResp :=
  match st.find? (fun e => e.1 == fp) with
  | some e => if now < e.2.2 then some e.2.1 else none
  | none => none

/-- Modelled from the spec: `put(fingerprint, response, ttl)` — entries
are never mutated, only superseded by a newer one. -/
def cachePut (st : Cache) (fp : String) (resp : SynthResp) (expiry : Nat) : Cache :=
  (fp, resp, expiry) :: st

/-- The succeeded-result view consumed by synthesis: id and content of a
Succeeded result, nothing for Failed or TimedOut. -/
def succView (r : ResponderResult) : Option (String × Option String) :=
  if r.rstatus = RStatus.succeeded then some (r.rid, r.content) else none

/-- Modelled from the spec: the generic apology of the partial-failure
policy (§4.3). -/
def apologyText : String :=
  "Sorry, I could not find an answer to your question right now. Please try again later."

/-- Drop later contents whose normalized text repeats an earlier one
(§4.4's simple normalized-text dedup). -/
def dedupNormalized : List String → List String
  | [] => []
  | c :: rest => c :: (dedupNormalized rest).filter (fun d => !(normalizeText d == normalizeText c))

/-- Modelled from the spec: `merge(results)` (§4.4) — keep Succeeded
results in plan order, concatenate deduplicated contents, and record the
contributing ids; all-failed yields the generic apology with no
contributors (§4.3). -/
def synthesize (results : List ResponderResult) : String × List String :=
  let succ := results.filterMap succView
  if succ.isEmpty then (apologyText, [])
  else (String.intercalate "\n\n" (dedupNormalized (succ.map (fun p => p.2.getD ""))),
        succ.map (fun p => p.1))

/-- Modelled from the spec: one request through cache and synthesis
(§2 control flow): on `use_cache`, a fresh unexpired entry for the
fingerprint short-circuits with `cache_hit` set; a miss synthesizes and
stores with the TTL; cache bypass neither reads nor writes. -/
def processQuery (st : Cache) (qtext : String) (useCache : Bool)
    (results : List ResponderResult) (now ttl : Nat) : SynthResp × Cache :=
  if useCache then
    match cacheGet st (fingerprint qtext) now with
    | some r => ({ r with cacheHit := true }, st)
    | none =>
      (⟨(synthesize results).1, (synthesize results).2, now, false⟩,
       cachePut st (fingerprint qtext)
         ⟨(synthesize results).1, (synthesize results).2, now, false⟩ (now + ttl))
  else
    (⟨(synthesize results).1, (synthesize results).2, now, false⟩, st)

/-- Modelled from the spec: engine configuration (§6) — which providers
are configured and the cache TTL. -/
structure EngineConfig where
  hasPrimary : Bool
  hasSecondary : Bool
  ttl : Nat

/-- Default cache TTL, 24 hours in seconds (§4.5). -/
def defaultTTL : Nat := 86400

/-- JSON rendering of a SynthesizedResponse as the §6 response body. -/
def respToJson (r : SynthResp) : Json :=
  Json.obj [("response", Json.str r.text),
            ("agents_used", Json.arr (r.agents.map Json.str)),
            ("timestamp", Json.str (toString r.timestamp)),
            ("cache_hit", Json.bool r.cacheHit)]

/-- Observability record for one responder invocation: id, latency, and
the error detail when present (§7). -/
def logLine (r : ResponderResult) : String :=
  r.rid ++ " latency=" ++ toString r.latencyMs ++
    (match r.errorDetail with
     | some e => " error=" ++ e
     | none => "")

/-- Log lines recorded by the engine for one request. -/
def engineLogs (results : List ResponderResult) : List String :=
  results.map logLine

/-- What the engine hands back over HTTP: status, body, log lines. -/
structure EngineOutput where
  status : Nat
  body : Json
  logs : List String

/-- Modelled from the spec: the FastAPI `/query` endpoint (§6, §7),
absent from the source tree.  With no provider configured the degraded
path cannot run and a 500 is returned; otherwise the request is served
with status 200 and a §6-shaped body.  `results` stands for the
responder outcomes of this request's dispatch plan. -/
def backendQuery (cfg : EngineConfig) (st : Cache) (fwd : Json)
    (results : List ResponderResult) (now : Nat) : EngineOutput × Cache :=
  if !cfg.hasPrimary && !cfg.hasSecondary then
    (⟨500, Json.obj [("error", Json.str "No language model provider is configured")],
      ["configuration error: no provider"]⟩, st)
  else
    match fwd.lookup "query" with
    | some (Json.str q) =>
      let useCache :=
        match fwd.lookup "use_cache" with
        | some (Json.bool b) => b
        | _ => true
      let r := processQuery st q useCache results now cfg.ttl
      (⟨200, respToJson r.1, engineLogs results⟩, r.2)
    | _ => (⟨422, Json.obj [("error", Json.str "query field missing")], []⟩, st)

/-- The full boundary: the Next.js query route in front of the modelled
backend, which answers the route's single `fetch` with its HTTP status
and body. -/
def composedQuery (cfg : EngineConfig) (st : Cache) (b : Json)
    (results : List ResponderResult) (now : Nat) : RouteResult :=
  queryPOST (some b) (fun fwd =>
    FetchOutcome.completed (backendQuery cfg st fwd results now).1.status
      (some (backendQuery cfg st fwd results now).1.body))

/-- A booking body whose `hours` is the number 0 and all other required
fields are non-empty strings. -/
def bookingBodyHoursZero : Json :=
  Json.obj [("dj_name", Json.str "DJ A"), ("date", Json.str "2026-01-01"),
            ("time", Json.str "20:00"), ("hours", Json.num 0),
            ("venue", Json.str "Club X")]

/-- A query far longer than any plausible length bound (100000
characters). -/
def oversizedQuery : String := String.mk (List.replicate 100000 'a')

/-- A backend stub answering 200 with an empty JSON object. -/
def okBackend : Json → FetchOutcome :=
  fun _ => FetchOutcome.completed 200 (some (Json.obj []))

/-- A request body carrying `use_cache: true` and a primary provider
preference beside the query. -/
def queryBodyCacheTrue : Json :=
  Json.obj [("query", Json.str "find a dj"), ("use_cache", Json.bool true),
            ("provider_preference", Json.str "primary")]

/-- The same request body except `use_cache: false` and the secondary
provider preference. -/
def queryBodyCacheFalse : Json :=
  Json.obj [("query", Json.str "find a dj"), ("use_cache", Json.bool false),
            ("provider_preference", Json.str "secondary")]

/-- A §6-shaped backend response body with the four documented fields. -/
def fourFieldBody : Json :=
  Json.obj [("response", Json.str "Here are some DJs."),
            ("agents_used", Json.arr [Json.str "booking"]),
            ("timestamp", Json.str "2026-01-01T00:00:00Z"),
            ("cache_hit", Json.bool false)]

/-- A found element satisfies the predicate, and every element before it
in the list refutes it. -/
theorem find?_split {α : Type} (p : α → Bool) :
    ∀ (l : List α) (a : α), l.find? p = some a →
      p a = true ∧ ∃ pre post, l = pre ++ a :: post ∧ ∀ x ∈ pre, p x = false
  | [], a, h => by simp [List.find?] at h
  | x :: xs, a, h => by
    by_cases hx : p x = true
    · rw [List.find?_cons_of_pos _ hx] at h
      cases h
      exact ⟨hx, [], xs, rfl, by simp⟩
    · have hx' : p x = false := by simpa using hx
      rw [List.find?_cons_of_neg _ (by simp [hx'])] at h
      obtain ⟨hpa, pre, post, heq, hpre⟩ := find?_split p xs a h
      refine ⟨hpa, x :: pre, post, by rw [heq]; rfl, ?_⟩
      intro y hy
      rcases List.mem_cons.mp hy with rfl | hy2
      · exact hx'
      · exact hpre y hy2

/-- On a non-null value, JS member access never throws and agrees with
the pure lookup. -/
theorem access_eq (b : Json) (k : String) (h : b ≠ Json.null) :
    Json.access b k = some (b.lookup k) := by
  cases b with
  | null => exact absurd rfl h
  | bool x => rfl
  | num n => rfl
  | str s => rfl
  | arr xs => rfl
  | obj fs =>
    show (match fs.find? (fun p => p.1 == k) with
          | some p => some (some p.2)
          | none => some none) =
      some (match fs.find? (fun p => p.1 == k) with
            | some p => some p.2
            | none => none)
    cases fs.find? (fun p => p.1 == k) <;> rfl

/-- A value on which some key's lookup is non-falsy is not JSON null. -/
theorem ne_null_of_falsy_false (b : Json) (k : String)
    (h : falsy (b.lookup k) = false) : b ≠ Json.null := by
  intro hb
  rw [hb] at h
  rw [show falsy (Json.lookup Json.null k) = true from rfl] at h
  exact Bool.noConfusion h

/-- C9: every OPTIONS preflight handler (query, djs, events, bookings
routes) returns status 200 and carries Access-Control-Allow-Origin with
the literal value `*`, independent of the request's origin and of any
allowed-origins configuration. -/
theorem optionsPreflightWildcard (origin : String) (allowedOrigins : List String) :
    (queryOPTIONS origin allowedOrigins).status = 200 ∧
    (queryOPTIONS origin allowedOrigins).headers.lookup "Access-Control-Allow-Origin" = some "*" ∧
    (djsOPTIONS origin allowedOrigins).status = 200 ∧
    (djsOPTIONS origin allowedOrigins).headers.lookup "Access-Control-Allow-Origin" = some "*" ∧
    (eventsOPTIONS origin allowedOrigins).status = 200 ∧
    (eventsOPTIONS origin allowedOrigins).headers.lookup "Access-Control-Allow-Origin" = some "*" ∧
    (bookingsOPTIONS origin allowedOrigins).status = 200 ∧
    (bookingsOPTIONS origin allowedOrigins).headers.lookup "Access-Control-Allow-Origin" = some "*" :=
  ⟨rfl, rfl, rfl, rfl, rfl, rfl, rfl, rfl⟩

/-- C8 counterexample: a JSON null body satisfies the claim's
antecedent (every required field is absent), yet member access throws
and the catch answers 500 without forwarding — not a 400 naming
dj_name. -/
theorem bookingsNullBody500 :
    falsy (Json.lookup Json.null "dj_name") = true ∧
    (bookingsPOST (some Json.null) okBackend).response.status = 500 ∧
    (bookingsPOST (some Json.null) okBackend).response.status ≠ 400 ∧
    (bookingsPOST (some Json.null) okBackend).dispatched = none :=
  ⟨rfl, rfl, by decide, rfl⟩

/-- C8 (amended): for a bookings request whose parsed body is not JSON
null, any of dj_name, date, time, hours, venue being absent or falsy is
answered HTTP 400 whose error names the first such field in that fixed
order, and nothing is forwarded; the falsiness check means hours equal
to 0 counts as missing.  (A JSON null body throws on the first field
access instead and the catch answers 500.) -/
theorem bookingsFalsyFieldRejected (b : Json) (backend : Json → FetchOutcome)
    (hb : b ≠ Json.null)
    (h : ∃ g ∈ requiredBookingFields, falsy (b.lookup g) = true) :
    ∃ f ∈ requiredBookingFields, falsy (b.lookup f) = true ∧
      (∃ pre post, requiredBookingFields = pre ++ f :: post ∧
        ∀ g ∈ pre, falsy (b.lookup g) = false) ∧
      bookingsPOST (some b) backend =
        ⟨⟨400, Json.obj [("error", Json.str (f ++ " is required"))]⟩, none, []⟩ := by
  have hs : (requiredBookingFields.find? (fun f => falsy (b.lookup f))).isSome := by
    rw [List.find?_isSome]
    obtain ⟨g, hg, hfg⟩ := h
    exact ⟨g, hg, hfg⟩
  obtain ⟨f, hf⟩ := Option.isSome_iff_exists.mp hs
  obtain ⟨hpf, pre, post, heq, hpre⟩ := find?_split _ _ _ hf
  refine ⟨f, ?_, hpf, ⟨pre, post, heq, hpre⟩, ?_⟩
  · rw [heq]
    exact List.mem_append_right _ (List.mem_cons_self _ _)
  · simp only [bookingsPOST]
    rw [access_eq b "dj_name" hb]
    simp only [firstFalsyField, hf]

/-- Witness for C8: the concrete booking with hours 0 trips the
falsiness check and the 400 names `hours`. -/
theorem bookingsFalsyFieldRejected_witness :
    (∃ f ∈ requiredBookingFields, falsy (bookingBodyHoursZero.lookup f) = true ∧
      (∃ pre post, requiredBookingFields = pre ++ f :: post ∧
        ∀ g ∈ pre, falsy (bookingBodyHoursZero.lookup g) = false) ∧
      bookingsPOST (some bookingBodyHoursZero) okBackend =
        ⟨⟨400, Json.obj [("error", Json.str (f ++ " is required"))]⟩, none, []⟩) ∧
    bookingsPOST (some bookingBodyHoursZero) okBackend =
      ⟨⟨400, Json.obj [("error", Json.str "hours is required")]⟩, none, []⟩ :=
  ⟨bookingsFalsyFieldRejected bookingBodyHoursZero okBackend
      (fun hcontr => Json.noConfusion hcontr)
      ⟨"hours", by simp [requiredBookingFields], by rfl⟩,
    by rfl⟩

/-- C2 (amended): for a non-null parsed body whose query field is
missing or falsy, the handler answers HTTP 400 before any dispatch; a
JSON null body instead throws on member access and the catch answers
500 without dispatch; the handler performs no length check. -/
theorem queryMissingRejected (b : Json) (backend : Json → FetchOutcome)
    (hb : b ≠ Json.null) (h : falsy (b.lookup "query") = true) :
    queryPOST (some b) backend =
      ⟨⟨400, Json.obj [("error", Json.str "Query is required")]⟩, none, []⟩ ∧
    ∀ bk2 : Json → FetchOutcome,
      (queryPOST (some Json.null) bk2).response.status = 500 ∧
      (queryPOST (some Json.null) bk2).dispatched = none := by
  constructor
  · simp only [queryPOST]
    rw [access_eq b "query" hb]
    simp only [h, if_true]
  · intro bk2
    exact ⟨rfl, rfl⟩

/-- Witness for C2 (amended) at an object body with no query field. -/
theorem queryMissingRejected_witness :
    falsy ((Json.obj [("context", Json.obj [])]).lookup "query") = true ∧
    (queryPOST (some (Json.obj [("context", Json.obj [])])) okBackend =
      ⟨⟨400, Json.obj [("error", Json.str "Query is required")]⟩, none, []⟩ ∧
     ∀ bk2 : Json → FetchOutcome,
       (queryPOST (some Json.null) bk2).response.status = 500 ∧
       (queryPOST (some Json.null) bk2).dispatched = none) :=
  ⟨by rfl,
   queryMissingRejected _ okBackend (fun hcontr => Json.noConfusion hcontr) (by rfl)⟩

/-- C2 counterexample: a 100000-character query is not rejected by the
handler — it is dispatched to the backend and the backend's 200 is
returned, contradicting the claim that an oversized query yields a 4xx
without dispatch. -/
theorem queryOversizedNotRejected :
    (queryPOST (some (Json.obj [("query", Json.str oversizedQuery)])) okBackend).dispatched ≠
      none ∧
    (queryPOST (some (Json.obj [("query", Json.str oversizedQuery)]))
        okBackend).response.status = 200 := by
  have hq : oversizedQuery ≠ "" := by
    intro hcontr
    have h1 : oversizedQuery.length = 0 := by rw [hcontr]; rfl
    rw [show oversizedQuery.length = (List.replicate 100000 'a').length from rfl,
      List.length_replicate] at h1
    exact absurd h1 (by decide)
  have hne : (oversizedQuery == "") = false := by
    cases h2 : oversizedQuery == ""
    · rfl
    · exact absurd (eq_of_beq h2) hq
  constructor <;>
    simp [queryPOST, Json.access, Json.lookup, falsy, hne, okBackend, respOk, jsOr]

/-- The query handler always forwards exactly the object
`(query, context-or-empty)` once the query is non-falsy, whatever the
backend then does. -/
theorem queryPOST_dispatched (b : Json) (backend : Json → FetchOutcome)
    (h : falsy (b.lookup "query") = false) :
    (queryPOST (some b) backend).dispatched =
      some (Json.obj [("query", (b.lookup "query").getD Json.null),
                      ("context", jsOr (b.lookup "context") (Json.obj []))]) := by
  have hbn : b ≠ Json.null := ne_null_of_falsy_false b "query" h
  simp only [queryPOST]
  rw [access_eq b "query" hbn, access_eq b "context" hbn]
  simp only [h, Bool.false_eq_true, if_false]
  cases hbk : backend (Json.obj [("query", (b.lookup "query").getD Json.null),
      ("context", jsOr (b.lookup "context") (Json.obj []))]) with
  | threw m => rfl
  | completed st jb =>
    by_cases hok : respOk st = true
    · cases jb <;> simp [hok]
    · have hok2 : respOk st = false := Bool.eq_false_iff.mpr hok
      simp only [hok2, Bool.false_eq_true, if_false]
      cases (jb.getD (Json.obj [("error", Json.str "Unknown error")])).access "error" with
      | none => rfl
      | some ev => rfl

/-- C3 (amended): the boundary forwards only query and context —
provider_preference and use_cache are dropped from the forwarded body,
so the backend cannot see them and a use_cache=false request does not
bypass the cache. -/
theorem queryForwardDropsFlags (b : Json) (backend : Json → FetchOutcome)
    (h : falsy (b.lookup "query") = false) :
    ∃ d, (queryPOST (some b) backend).dispatched = some d ∧
      d.lookup "query" = b.lookup "query" ∧
      d.lookup "use_cache" = none ∧
      d.lookup "provider_preference" = none := by
  cases hb : b.lookup "query" with
  | none => rw [hb] at h; cases h
  | some v =>
    refine ⟨Json.obj [("query", (b.lookup "query").getD Json.null),
        ("context", jsOr (b.lookup "context") (Json.obj []))],
      queryPOST_dispatched b backend h, ?_, ?_, ?_⟩
    · rw [hb]
      simp [Json.lookup, List.find?]
    · simp [Json.lookup, List.find?]
    · simp [Json.lookup, List.find?]

/-- Witness for C3 (amended) at a body carrying both optional flags. -/
theorem queryForwardDropsFlags_witness :
    falsy (queryBodyCacheFalse.lookup "query") = false ∧
    ∃ d, (queryPOST (some queryBodyCacheFalse) okBackend).dispatched = some d ∧
      d.lookup "query" = queryBodyCacheFalse.lookup "query" ∧
      d.lookup "use_cache" = none ∧
      d.lookup "provider_preference" = none :=
  ⟨by rfl, queryForwardDropsFlags queryBodyCacheFalse okBackend (by rfl)⟩

/-- C3 counterexample: two requests identical except for
use_cache and provider_preference are forwarded as byte-identical
bodies, so neither flag can govern the backend's processing and
use_cache=false does not skip the cache. -/
theorem queryFlagsIdenticalForward :
    (queryPOST (some queryBodyCacheFalse) okBackend).dispatched =
      (queryPOST (some queryBodyCacheTrue) okBackend).dispatched ∧
    (queryPOST (some queryBodyCacheFalse) okBackend).dispatched =
      some (Json.obj [("query", Json.str "find a dj"), ("context", Json.obj [])]) := by
  constructor <;> rfl

/-- C4: when the backend answers the forwarded request with an ok
status and a JSON body, the handler returns that body unchanged with
status 200. -/
theorem queryOkPassthrough (b : Json) (backend : Json → FetchOutcome) (st : Nat) (d : Json)
    (hq : falsy (b.lookup "query") = false)
    (hb : backend (Json.obj [("query", (b.lookup "query").getD Json.null),
                             ("context", jsOr (b.lookup "context") (Json.obj []))]) =
          FetchOutcome.completed st (some d))
    (hok : respOk st = true) :
    (queryPOST (some b) backend).response = ⟨200, d⟩ := by
  have hbn : b ≠ Json.null := ne_null_of_falsy_false b "query" hq
  simp only [queryPOST]
  rw [access_eq b "query" hbn, access_eq b "context" hbn]
  simp only [hq, Bool.false_eq_true, if_false, hb, hok, if_true]

/-- Witness for C4: a backend 200 with the four-field §6 body reaches
the caller unchanged, so the caller receives exactly those four fields. -/
theorem queryOkPassthrough_witness :
    (queryPOST (some (Json.obj [("query", Json.str "best dj in oslo")]))
        (fun _ => FetchOutcome.completed 200 (some fourFieldBody))).response =
      ⟨200, fourFieldBody⟩ :=
  queryOkPassthrough _ _ 200 fourFieldBody (by rfl) (by rfl) (by rfl)

/-- A string with an ampersand appended ends with an ampersand. -/
theorem endsWithAmp_concat (s : String) : endsWithAmp (s ++ "&") = true := by
  unfold endsWithAmp
  rw [String.data_append, show ("&" : String).data = ['&'] from rfl, List.getLast?_concat]
  rfl

/-- Stripping the trailing ampersand undoes appending one. -/
theorem stripTrailingAmp_concat (s : String) : stripTrailingAmp (s ++ "&") = s := by
  unfold stripTrailingAmp
  rw [endsWithAmp_concat, if_pos rfl]
  apply String.ext
  show (s ++ "&").data.dropLast = s.data
  rw [String.data_append, show ("&" : String).data = ['&'] from rfl, List.dropLast_concat]

/-- The loop's concatenation over a non-empty parameter list is the
joined rendering plus one trailing ampersand. -/
theorem piecesConcat_eq_renderQS_amp : ∀ (p : String × String) (rest : List (String × String)),
    piecesConcat (p :: rest) = renderQS (p :: rest) ++ "&"
  | p, [] => by
    have e1 : piecesConcat [p] = p.1 ++ "=" ++ p.2 ++ "&" ++ "" := by simp [piecesConcat]
    have e2 : renderQS [p] = p.1 ++ "=" ++ p.2 := by simp [renderQS]
    rw [e1, e2]
    simp [String.append_assoc, String.append_empty]
  | p, q :: rest => by
    have e1 : piecesConcat (p :: q :: rest) =
        p.1 ++ "=" ++ p.2 ++ "&" ++ piecesConcat (q :: rest) := by simp [piecesConcat]
    have e2 : renderQS (p :: q :: rest) =
        p.1 ++ "=" ++ p.2 ++ "&" ++ renderQS (q :: rest) := by simp [renderQS]
    rw [e1, e2, piecesConcat_eq_renderQS_amp q rest]
    simp [String.append_assoc]

/-- Stripping the trailing ampersand of the loop's concatenation yields
exactly the `&`-joined parameter rendering. -/
theorem stripPieces : ∀ ps : List (String × String),
    stripTrailingAmp (piecesConcat ps) = renderQS ps
  | [] => rfl
  | p :: rest => by rw [piecesConcat_eq_renderQS_amp p rest, stripTrailingAmp_concat]

/-- Concatenating pieces distributes over list append. -/
theorem piecesConcat_append : ∀ l1 l2 : List (String × String),
    piecesConcat (l1 ++ l2) = piecesConcat l1 ++ piecesConcat l2
  | [], l2 => by
    show piecesConcat l2 = "" ++ piecesConcat l2
    rw [String.empty_append]
  | p :: rest, l2 => by
    show p.1 ++ "=" ++ p.2 ++ "&" ++ piecesConcat (rest ++ l2) =
      (p.1 ++ "=" ++ p.2 ++ "&" ++ piecesConcat rest) ++ piecesConcat l2
    rw [piecesConcat_append rest l2]
    simp [String.append_assoc]

/-- A string starting with a non-empty string is not beq-empty. -/
theorem append_beq_empty_left (s t : String) (h : s.data ≠ []) : ((s ++ t) == "") = false := by
  have hne : s ++ t ≠ "" := by
    intro hcontr
    apply h
    have hd := congrArg String.data hcontr
    rw [String.data_append, show ("" : String).data = [] from rfl] at hd
    exact (List.append_eq_nil.mp hd).1
  cases h2 : (s ++ t) == ""
  · rfl
  · exact absurd (eq_of_beq h2) hne

/-- The rendered query string is beq-empty exactly when the parameter
list is empty, provided parameter names are non-empty. -/
theorem renderQS_beq_empty (ps : List (String × String)) (h : ∀ p ∈ ps, p.1.data ≠ []) :
    (renderQS ps == "") = ps.isEmpty := by
  cases ps with
  | nil => rfl
  | cons p rest =>
    cases rest with
    | nil =>
      have e : renderQS [p] = p.1 ++ ("=" ++ p.2) := by
        simp [renderQS, String.append_assoc]
      rw [e, show ([p] : List (String × String)).isEmpty = false from rfl]
      exact append_beq_empty_left _ _ (h p (by simp))
    | cons q rest2 =>
      have e : renderQS (p :: q :: rest2) =
          p.1 ++ ("=" ++ (p.2 ++ ("&" ++ renderQS (q :: rest2)))) := by
        simp [renderQS, String.append_assoc]
      rw [e, show ((p :: q :: rest2) : List (String × String)).isEmpty = false from rfl]
      exact append_beq_empty_left _ _ (h p (by simp))

/-- Every pair a parameter option contributes carries its fixed name. -/
theorem paramOpt_name (name : String) (o : Option String) :
    ∀ p ∈ paramOpt name o, p.1 = name := by
  intro p hp
  cases o with
  | none => cases hp
  | some v =>
    rw [show paramOpt name (some v) =
        (if (v == "") = true then [] else [(name, encodeURIComponent v)]) from rfl] at hp
    by_cases hv : (v == "") = true
    · rw [if_pos hv] at hp; cases hp
    · rw [if_neg hv] at hp
      rcases List.mem_singleton.mp hp with rfl
      rfl

/-- Filtering a parameter option by its own name keeps it whole. -/
theorem filter_self_of_name (name : String) (o : Option String) :
    (paramOpt name o).filter (fun p => p.1 == name) = paramOpt name o := by
  cases o with
  | none => rfl
  | some v =>
    rw [show paramOpt name (some v) =
        (if (v == "") = true then [] else [(name, encodeURIComponent v)]) from rfl]
    by_cases hv : (v == "") = true
    · rw [if_pos hv]; rfl
    · rw [if_neg hv]
      simp [List.filter]

/-- Filtering a parameter option by a different name removes it. -/
theorem filter_nil_of_name (name key : String) (o : Option String)
    (h : (name == key) = false) :
    (paramOpt name o).filter (fun p => p.1 == key) = [] := by
  cases o with
  | none => rfl
  | some v =>
    rw [show paramOpt name (some v) =
        (if (v == "") = true then [] else [(name, encodeURIComponent v)]) from rfl]
    by_cases hv : (v == "") = true
    · rw [if_pos hv]; rfl
    · rw [if_neg hv]
      simp [List.filter, h]

/-- All forwarded djs parameter names are non-empty. -/
theorem djsParams_names (g m a : Option String) :
    ∀ p ∈ djsParams g m a, p.1.data ≠ [] := by
  intro p hp
  unfold djsParams at hp
  rcases List.mem_append.mp hp with hp12 | hp3
  · rcases List.mem_append.mp hp12 with hp1 | hp2
    · rw [paramOpt_name _ _ _ hp1]; decide
    · rw [paramOpt_name _ _ _ hp2]; decide
  · rw [paramOpt_name _ _ _ hp3]; decide

/-- One `if truthy` piece of the route's loop equals the loop rendering
of the corresponding spec-side parameter. -/
theorem codePiece (name pre : String) (o : Option String) (hpre : pre = name ++ "=") :
    (if jsTruthyStr o then pre ++ encodeURIComponent (o.getD "") ++ "&" else "") =
      piecesConcat (paramOpt name o) := by
  cases o with
  | none => rfl
  | some v =>
    rw [show jsTruthyStr (some v) = !(v == "") from rfl,
      show paramOpt name (some v) =
        (if (v == "") = true then [] else [(name, encodeURIComponent v)]) from rfl,
      show (some v).getD "" = v from rfl]
    by_cases hv : (v == "") = true
    · rw [hv]
      simp [piecesConcat]
    · have hv' : (v == "") = false := Bool.eq_false_iff.mpr hv
      rw [hv']
      have e : piecesConcat (if false = true then [] else [(name, encodeURIComponent v)]) =
          name ++ "=" ++ encodeURIComponent v ++ "&" ++ "" := by simp [piecesConcat]
      rw [e, hpre]
      simp [String.append_assoc, String.append_empty]

/-- The route's query string is exactly the `&`-joined rendering of the
spec-side parameter list. -/
theorem djsQueryString_eq_renderQS (genres minRating availability : Option String) :
    djsQueryString genres minRating availability =
      renderQS (djsParams genres minRating availability) := by
  unfold djsQueryString
  rw [codePiece "genres" "genres=" genres rfl,
    codePiece "min_rating" "min_rating=" minRating rfl,
    codePiece "availability" "availability=" availability rfl,
    ← piecesConcat_append, ← piecesConcat_append, stripPieces]
  rfl

/-- C10: the URL the djs GET handler forwards equals the spec-side URL —
a parameter appears iff the incoming one is present and non-empty,
minRating is renamed to min_rating, values are URI-encoded, pieces are
joined by ampersands with no trailing one, and the question mark appears
only when some parameter is forwarded. -/
theorem djsForwardedURL (apiUrl : String) (genres minRating availability : Option String) :
    djsURL apiUrl genres minRating availability =
      djsURLSpec apiUrl genres minRating availability ∧
    (djsParams genres minRating availability).filter (fun p => p.1 == "genres") =
      paramOpt "genres" genres ∧
    (djsParams genres minRating availability).filter (fun p => p.1 == "min_rating") =
      paramOpt "min_rating" minRating ∧
    (djsParams genres minRating availability).filter (fun p => p.1 == "availability") =
      paramOpt "availability" availability := by
  refine ⟨?_, ?_, ?_, ?_⟩
  · unfold djsURL djsURLSpec
    rw [djsQueryString_eq_renderQS]
    show apiUrl ++ "/djs" ++
        (if ((renderQS (djsParams genres minRating availability)) == "") = true then ""
         else "?" ++ renderQS (djsParams genres minRating availability)) =
      apiUrl ++ "/djs" ++
        (if (djsParams genres minRating availability).isEmpty = true then ""
         else "?" ++ renderQS (djsParams genres minRating availability))
    rw [renderQS_beq_empty _ (djsParams_names genres minRating availability)]
  · unfold djsParams
    rw [List.filter_append, List.filter_append]
    rw [filter_self_of_name "genres" genres, filter_nil_of_name "min_rating" "genres" minRating (by decide),
      filter_nil_of_name "availability" "genres" availability (by decide)]
    simp
  · unfold djsParams
    rw [List.filter_append, List.filter_append]
    rw [filter_nil_of_name "genres" "min_rating" genres (by decide),
      filter_self_of_name "min_rating" minRating,
      filter_nil_of_name "availability" "min_rating" availability (by decide)]
    simp
  · unfold djsParams
    rw [List.filter_append, List.filter_append]
    rw [filter_nil_of_name "genres" "availability" genres (by decide),
      filter_nil_of_name "min_rating" "availability" minRating (by decide),
      filter_self_of_name "availability" availability]
    simp

/-- Insertion keeps exactly the elements. -/
theorem mem_insertRanked (x y : ResponderMeta × ℚ) :
    ∀ l, y ∈ insertRanked x l ↔ y = x ∨ y ∈ l
  | [] => by simp [insertRanked]
  | z :: zs => by
    unfold insertRanked
    by_cases h : ranksBefore x z = true
    · rw [if_pos h]
      simp
    · rw [if_neg h]
      rw [List.mem_cons, List.mem_cons, mem_insertRanked x y zs]
      tauto

/-- Sorting keeps exactly the elements. -/
theorem mem_sortRanked (y : ResponderMeta × ℚ) :
    ∀ l, y ∈ sortRanked l ↔ y ∈ l
  | [] => Iff.rfl
  | x :: xs => by
    unfold sortRanked
    rw [mem_insertRanked, mem_sortRanked y xs, List.mem_cons]

/-- Keyword scores are fractions in the unit interval. -/
theorem score_bounds (m : ResponderMeta) (q : String) : 0 ≤ score m q ∧ score m q ≤ 1 := by
  unfold score
  by_cases h : m.keywords.isEmpty = true
  · rw [if_pos h]
    norm_num
  · rw [if_neg h]
    have hne : m.keywords ≠ [] := by
      intro hc
      rw [hc] at h
      exact h rfl
    have hlen : 0 < (m.keywords.length : ℚ) := by
      exact_mod_cast List.length_pos.mpr hne
    constructor
    · positivity
    · rw [div_le_one hlen]
      exact_mod_cast List.countP_le_length _

/-- C7: classification is total — it never returns an empty plan, every
confidence lies in [0,1], and when no responder's score clears the 0.3
threshold the result is the default general responder rather than an
empty set or an error. -/
theorem classifyTotal (q : String) :
    classify q ≠ [] ∧
    (∀ p ∈ classify q, 0 ≤ p.2 ∧ p.2 ≤ 1) ∧
    ((∀ m ∈ responders, score m q < threshold) →
      classify q = [(defaultResponderId, 1)]) := by
  refine ⟨?_, ?_, ?_⟩
  · unfold classify
    by_cases hc : ((responders.map (fun m => (m, score m q))).filter
        (fun p => threshold ≤ p.2)).isEmpty = true
    · rw [if_pos hc]
      simp
    · rw [if_neg hc]
      have hne : (responders.map (fun m => (m, score m q))).filter
          (fun p => threshold ≤ p.2) ≠ [] := by
        intro h0
        rw [h0] at hc
        exact hc rfl
      obtain ⟨x, hx⟩ := List.exists_mem_of_ne_nil _ hne
      have hxs : x ∈ sortRanked ((responders.map (fun m => (m, score m q))).filter
          (fun p => threshold ≤ p.2)) := (mem_sortRanked x _).mpr hx
      exact List.ne_nil_of_mem (List.mem_map_of_mem _ hxs)
  · intro p hp
    unfold classify at hp
    by_cases hc : ((responders.map (fun m => (m, score m q))).filter
        (fun p => threshold ≤ p.2)).isEmpty = true
    · rw [if_pos hc] at hp
      rcases List.mem_singleton.mp hp with rfl
      norm_num
    · rw [if_neg hc] at hp
      obtain ⟨y, hy, hyp⟩ := List.mem_map.mp hp
      have hy2 : y ∈ (responders.map (fun m => (m, score m q))) :=
        List.mem_of_mem_filter ((mem_sortRanked y _).mp hy)
      obtain ⟨m, _, hm2⟩ := List.mem_map.mp hy2
      have hps : p.2 = score m q := by
        rw [← hyp, ← hm2]
      rw [hps]
      exact score_bounds m q
  · intro hall
    have hnil : (responders.map (fun m => (m, score m q))).filter
        (fun p => threshold ≤ p.2) = [] := by
      rw [List.filter_eq_nil_iff]
      intro a ha
      obtain ⟨m, hm, hm2⟩ := List.mem_map.mp ha
      rw [← hm2]
      simpa using not_le.mpr (hall m hm)
    unfold classify
    rw [hnil]
    rfl

/-- A responder matching none of its keywords scores zero. -/
theorem score_eq_zero (m : ResponderMeta) (q : String)
    (h : m.keywords.countP (fun k => (tokens q).contains k) = 0) : score m q = 0 := by
  unfold score
  by_cases he : m.keywords.isEmpty = true
  · rw [if_pos he]
  · rw [if_neg he, h]
    norm_num

/-- Witness for C7 at a query matching no keywords: the classification
falls back to the default general responder. -/
theorem classifyTotal_witness :
    classify "qqq zzz" ≠ [] ∧ classify "qqq zzz" = [(defaultResponderId, 1)] :=
  ⟨(classifyTotal "qqq zzz").1, (classifyTotal "qqq zzz").2.2 (by
    intro m hm
    have h0 : score m "qqq zzz" = 0 := score_eq_zero m _ (by
      simp only [responders] at hm
      fin_cases hm <;> rfl)
    rw [h0]
    norm_num [threshold])⟩

/-- A cache hit with use_cache short-circuits: the cached response comes
back with the cache-hit flag set and the cache unchanged. -/
theorem processQuery_hit (st : Cache) (q : String) (results : List ResponderResult)
    (now ttl : Nat) (r : SynthResp) (h : cacheGet st (fingerprint q) now = some r) :
    processQuery st q true results now ttl = ({ r with cacheHit := true }, st) := by
  unfold processQuery
  rw [h]
  rfl

/-- A cache miss with use_cache synthesizes fresh and stores the result
under the fingerprint with the TTL. -/
theorem processQuery_miss (st : Cache) (q : String) (results : List ResponderResult)
    (now ttl : Nat) (h : cacheGet st (fingerprint q) now = none) :
    processQuery st q true results now ttl =
      (⟨(synthesize results).1, (synthesize results).2, now, false⟩,
       cachePut st (fingerprint q)
         ⟨(synthesize results).1, (synthesize results).2, now, false⟩ (now + ttl)) := by
  unfold processQuery
  rw [h]
  rfl

/-- Queries with the same tokens have the same fingerprint. -/
theorem fingerprint_congr (q1 q2 : String) (h : tokens q1 = tokens q2) :
    fingerprint q1 = fingerprint q2 := by
  unfold fingerprint normalizeText classify score
  rw [h]

/-- C6: cache idempotence — two issues with the same fingerprint and
use_cache on, the first finding no live entry and the second within the
TTL of the first, give a cache hit with identical response text on the
second. -/
theorem cacheIdempotent (st : Cache) (q1 q2 : String)
    (results1 results2 : List ResponderResult) (t0 t1 ttl : Nat)
    (hfp : fingerprint q1 = fingerprint q2)
    (hmiss : cacheGet st (fingerprint q1) t0 = none)
    (httl : t1 < t0 + ttl) :
    (processQuery (processQuery st q1 true results1 t0 ttl).2 q2 true results2 t1 ttl).1.cacheHit =
      true ∧
    (processQuery (processQuery st q1 true results1 t0 ttl).2 q2 true results2 t1 ttl).1.text =
      (processQuery st q1 true results1 t0 ttl).1.text := by
  rw [processQuery_miss st q1 results1 t0 ttl hmiss]
  have hget2 : cacheGet
      (cachePut st (fingerprint q1)
        ⟨(synthesize results1).1, (synthesize results1).2, t0, false⟩ (t0 + ttl))
      (fingerprint q2) t1 =
      some ⟨(synthesize results1).1, (synthesize results1).2, t0, false⟩ := by
    rw [← hfp]
    unfold cacheGet cachePut
    rw [List.find?_cons_of_pos _ (by simp)]
    simp [httl]
  rw [processQuery_hit _ _ results2 _ _ _ hget2]
  exact ⟨rfl, rfl⟩

/-- Witness for C6: the same query issued twice (differing only in case
and spacing) from an empty cache hits on the second issue. -/
theorem cacheIdempotent_witness :
    (processQuery (processQuery [] "Hello  DJ" true [] 0 86400).2
        "hello dj" true [] 100 86400).1.cacheHit = true ∧
    (processQuery (processQuery [] "Hello  DJ" true [] 0 86400).2
        "hello dj" true [] 100 86400).1.text =
      (processQuery [] "Hello  DJ" true [] 0 86400).1.text :=
  cacheIdempotent [] "Hello  DJ" "hello dj" [] [] 0 100 86400
    (fingerprint_congr _ _ rfl) rfl (by decide)

/-- When no responder succeeded, synthesis degrades to the generic
apology with no contributors. -/
theorem synthesize_all_failed (results : List ResponderResult)
    (hfail : ∀ r ∈ results, r.rstatus ≠ RStatus.succeeded) :
    synthesize results = (apologyText, []) := by
  have hsucc : results.filterMap succView = [] := by
    rw [List.filterMap_eq_nil_iff]
    intro r hr
    unfold succView
    rw [if_neg (hfail r hr)]
  unfold synthesize
  rw [hsucc]
  rfl

/-- The modelled backend's answer to the forwarded body when every
responder failed or timed out and the cache missed: 200 with the apology
body and no contributing agents. -/
theorem backendQuery_all_failed (cfg : EngineConfig) (st : Cache) (qs : String) (ctx : Json)
    (results : List ResponderResult) (now : Nat)
    (hp2 : (!cfg.hasPrimary && !cfg.hasSecondary) = false)
    (hfail : ∀ r ∈ results, r.rstatus ≠ RStatus.succeeded)
    (hmiss : cacheGet st (fingerprint qs) now = none) :
    backendQuery cfg st (Json.obj [("query", Json.str qs), ("context", ctx)]) results now =
      (⟨200, respToJson ⟨apologyText, [], now, false⟩, engineLogs results⟩,
       cachePut st (fingerprint qs) ⟨apologyText, [], now, false⟩ (now + cfg.ttl)) := by
  simp only [backendQuery, hp2, Bool.false_eq_true, if_false,
    show (Json.obj [("query", Json.str qs), ("context", ctx)]).lookup "query" =
      some (Json.str qs) from rfl,
    show (Json.obj [("query", Json.str qs), ("context", ctx)]).lookup "use_cache" =
      none from rfl]
  rw [processQuery_miss st qs results now cfg.ttl hmiss,
    synthesize_all_failed results hfail]

/-- C1: when every responder fails or times out (and a provider is
configured so the degraded path can run), the boundary answers HTTP 200
with the non-empty apology as `response` and an empty `agents_used`; a
5xx arises from the modelled backend only when no provider is
configured, i.e. when the degraded path itself cannot run. -/
theorem totalFailureDegrades (cfg : EngineConfig) (st : Cache) (b : Json)
    (results : List ResponderResult) (now : Nat) (qs : String)
    (hq : b.lookup "query" = some (Json.str qs))
    (hne : (qs == "") = false)
    (hprov : cfg.hasPrimary = true ∨ cfg.hasSecondary = true)
    (hfail : ∀ r ∈ results, r.rstatus ≠ RStatus.succeeded)
    (hmiss : cacheGet st (fingerprint qs) now = none) :
    (composedQuery cfg st b results now).response.status = 200 ∧
    (composedQuery cfg st b results now).response.body.lookup "response" =
      some (Json.str apologyText) ∧
    apologyText ≠ "" ∧
    (composedQuery cfg st b results now).response.body.lookup "agents_used" =
      some (Json.arr []) ∧
    (∀ (cfg2 : EngineConfig) (st2 : Cache) (fwd2 : Json)
        (res2 : List ResponderResult) (now2 : Nat),
      500 ≤ (backendQuery cfg2 st2 fwd2 res2 now2).1.status →
        cfg2.hasPrimary = false ∧ cfg2.hasSecondary = false) := by
  have hp2 : (!cfg.hasPrimary && !cfg.hasSecondary) = false := by
    rcases hprov with h | h <;> simp [h]
  have hbn : b ≠ Json.null := by
    intro hc
    rw [hc] at hq
    simp [Json.lookup] at hq
  have hcomp : composedQuery cfg st b results now =
      ⟨⟨200, respToJson ⟨apologyText, [], now, false⟩⟩,
       some (Json.obj [("query", Json.str qs),
                       ("context", jsOr (b.lookup "context") (Json.obj []))]),
       []⟩ := by
    simp only [composedQuery, queryPOST]
    rw [access_eq b "query" hbn, access_eq b "context" hbn]
    simp only [hq, Option.getD_some,
      show falsy (some (Json.str qs)) = (qs == "") from rfl, hne,
      Bool.false_eq_true, if_false]
    rw [backendQuery_all_failed cfg st qs (jsOr (b.lookup "context") (Json.obj []))
      results now hp2 hfail hmiss]
    rfl
  refine ⟨by rw [hcomp], by rw [hcomp]; rfl, by decide, by rw [hcomp]; rfl, ?_⟩
  intro cfg2 st2 fwd2 res2 now2 hst
  by_cases hc : (!cfg2.hasPrimary && !cfg2.hasSecondary) = true
  · constructor
    · cases hp : cfg2.hasPrimary
      · rfl
      · rw [hp] at hc
        simp at hc
    · cases hs : cfg2.hasSecondary
      · rfl
      · rw [hs] at hc
        simp at hc
  · exfalso
    have hc2 : (!cfg2.hasPrimary && !cfg2.hasSecondary) = false := Bool.eq_false_iff.mpr hc
    unfold backendQuery at hst
    rw [hc2] at hst
    simp only [Bool.false_eq_true, if_false] at hst
    cases hl : fwd2.lookup "query" with
    | none =>
      rw [hl] at hst
      simp at hst
    | some v =>
      rw [hl] at hst
      cases v <;> simp at hst

/-- Witness for C1: a single failed booking responder behind a
primary-configured engine yields 200 with empty agents_used. -/
theorem totalFailureDegrades_witness :
    (composedQuery ⟨true, false, 86400⟩ [] (Json.obj [("query", Json.str "book a dj")])
        [⟨"booking", RStatus.failed, none, 42, some "ProviderError RateLimited"⟩]
        0).response.status = 200 ∧
    (composedQuery ⟨true, false, 86400⟩ [] (Json.obj [("query", Json.str "book a dj")])
        [⟨"booking", RStatus.failed, none, 42, some "ProviderError RateLimited"⟩]
        0).response.body.lookup "agents_used" = some (Json.arr []) :=
  ⟨(totalFailureDegrades ⟨true, false, 86400⟩ [] (Json.obj [("query", Json.str "book a dj")])
      [⟨"booking", RStatus.failed, none, 42, some "ProviderError RateLimited"⟩] 0 "book a dj"
      rfl rfl (Or.inl rfl) (by decide) rfl).1,
   (totalFailureDegrades ⟨true, false, 86400⟩ [] (Json.obj [("query", Json.str "book a dj")])
      [⟨"booking", RStatus.failed, none, 42, some "ProviderError RateLimited"⟩] 0 "book a dj"
      rfl rfl (Or.inl rfl) (by decide) rfl).2.2.2.1⟩

/-- All processing downstream of synthesis depends on the responder
results only through synthesis. -/
theorem processQuery_congr (st : Cache) (q : String) (u : Bool)
    (results1 results2 : List ResponderResult) (now ttl : Nat)
    (hsyn : synthesize results1 = synthesize results2) :
    processQuery st q u results1 now ttl = processQuery st q u results2 now ttl := by
  unfold processQuery
  rw [hsyn]

/-- The modelled backend's status and body depend on the responder
results only through the succeeded-result view; failure detail reaches
the logs alone. -/
theorem backendQuery_view (cfg : EngineConfig) (st : Cache) (fwd : Json)
    (results1 results2 : List ResponderResult) (now : Nat)
    (hview : results1.filterMap succView = results2.filterMap succView) :
    (backendQuery cfg st fwd results1 now).1.status =
      (backendQuery cfg st fwd results2 now).1.status ∧
    (backendQuery cfg st fwd results1 now).1.body =
      (backendQuery cfg st fwd results2 now).1.body := by
  have hsyn : synthesize results1 = synthesize results2 := by
    unfold synthesize
    rw [hview]
  simp only [backendQuery]
  by_cases hc : (!cfg.hasPrimary && !cfg.hasSecondary) = true
  · rw [hc]
    exact ⟨rfl, rfl⟩
  · have hc2 : (!cfg.hasPrimary && !cfg.hasSecondary) = false := Bool.eq_false_iff.mpr hc
    rw [hc2]
    simp only [Bool.false_eq_true, if_false]
    cases hl : fwd.lookup "query" with
    | none => exact ⟨rfl, rfl⟩
    | some v =>
      cases v with
      | str q =>
        constructor
        · rfl
        · show respToJson (processQuery st q
              (match fwd.lookup "use_cache" with
               | some (Json.bool b2) => b2
               | _ => true) results1 now cfg.ttl).1 =
            respToJson (processQuery st q
              (match fwd.lookup "use_cache" with
               | some (Json.bool b2) => b2
               | _ => true) results2 now cfg.ttl).1
          rw [processQuery_congr st q _ results1 results2 now cfg.ttl hsyn]
      | null => exact ⟨rfl, rfl⟩
      | bool b2 => exact ⟨rfl, rfl⟩
      | num n => exact ⟨rfl, rfl⟩
      | arr xs => exact ⟨rfl, rfl⟩
      | obj fs => exact ⟨rfl, rfl⟩

/-- C5: two runs of the boundary that differ only in internal failure
detail (which responder failed, its latency, its provider error kind)
produce the same user-visible response, while each responder's detail is
recorded in the observability log. -/
theorem failureDetailNoninterference (cfg : EngineConfig) (st : Cache) (b : Json)
    (results1 results2 : List ResponderResult) (now : Nat)
    (hview : results1.filterMap succView = results2.filterMap succView) :
    (composedQuery cfg st b results1 now).response =
      (composedQuery cfg st b results2 now).response ∧
    (∀ r ∈ results1, logLine r ∈ engineLogs results1) ∧
    (∀ r ∈ results2, logLine r ∈ engineLogs results2) := by
  refine ⟨?_, ?_, ?_⟩
  · have hbk : (fun fwd => FetchOutcome.completed (backendQuery cfg st fwd results1 now).1.status
        (some (backendQuery cfg st fwd results1 now).1.body)) =
        (fun fwd => FetchOutcome.completed (backendQuery cfg st fwd results2 now).1.status
        (some (backendQuery cfg st fwd results2 now).1.body)) := by
      funext fwd
      obtain ⟨h1, h2⟩ := backendQuery_view cfg st fwd results1 results2 now hview
      rw [h1, h2]
    unfold composedQuery
    rw [hbk]
  · intro r hr
    exact List.mem_map_of_mem _ hr
  · intro r hr
    exact List.mem_map_of_mem _ hr

/-- Witness for C5: a rate-limited booking failure and a pair of
events/playlist failures with different latencies and details give the
same user-visible response. -/
theorem failureDetailNoninterference_witness :
    (composedQuery ⟨true, true, 60⟩ [] (Json.obj [("query", Json.str "find events")])
        [⟨"booking", RStatus.failed, none, 5, some "RateLimited at primary"⟩] 0).response =
      (composedQuery ⟨true, true, 60⟩ [] (Json.obj [("query", Json.str "find events")])
        [⟨"events", RStatus.timedOut, none, 9999, some "Unavailable"⟩,
         ⟨"playlist", RStatus.failed, none, 3, none⟩] 0).response ∧
    (∀ r ∈ [(⟨"booking", RStatus.failed, none, 5, some "RateLimited at primary"⟩ :
        ResponderResult)],
      logLine r ∈ engineLogs [⟨"booking", RStatus.failed, none, 5,
        some "RateLimited at primary"⟩]) ∧
    (∀ r ∈ [(⟨"events", RStatus.timedOut, none, 9999, some "Unavailable"⟩ : ResponderResult),
        ⟨"playlist", RStatus.failed, none, 3, none⟩],
      logLine r ∈ engineLogs [⟨"events", RStatus.timedOut, none, 9999, some "Unavailable"⟩,
        ⟨"playlist", RStatus.failed, none, 3, none⟩]) :=
  failureDetailNoninterference ⟨true, true, 60⟩ [] (Json.obj [("query", Json.str "find events")])
    [⟨"booking", RStatus.failed, none, 5, some "RateLimited at primary"⟩]
    [⟨"events", RStatus.timedOut, none, 9999, some "Unavailable"⟩,
     ⟨"playlist", RStatus.failed, none, 3, none⟩] 0 (by rfl)

end Afro
